import Mathlib

/-!
# Verification of the pg_replicate BigQuery sink and control-plane surface

Shallow embedding of `src/pg_replicate/src/clients/bigquery.rs`,
`src/pg_replicate/examples/delta.rs` and the control-plane behaviour exercised
by `src/api/tests/api/pipelines.rs`.

Rust `String` values that are built up character by character are modelled as
`List Char` (`push_str` is `++`, `push` appends a singleton, `pop` is
`dropLast`).  Protobuf byte buffers are modelled as `List Nat` with every
element a byte value.  Machine integers are modelled as `Int`/`Nat` with
explicit wrapping where the code reinterprets bits.
-/

/-! ## Row and schema model (`pg_replicate` crate)

The `Cell` enum of `conversions::Cell`.  Library-typed payloads are modelled
as follows:

* `String` payloads are `List Char`;
* `I16`/`I32`/`I64` are `Int` (the ranges of the machine types);
* `F32`/`F64` carry the IEEE bit pattern (a `Nat` below `2^32`/`2^64`)
  together with the decimal `Display` rendering used by `format!`, since
  bit-level float semantics are not embedded;
* `Numeric`, `Date`, `Time` and `Uuid` payloads are represented by their
  canonical textual rendering (for these, `Display` and the `chrono` format
  string used by `encode_raw` agree);
* `TimeStamp`/`TimeStampTz` carry the `Display` rendering (used in SQL
  literals) and the wire rendering (the `%Y-%m-%d %H:%M:%S%.f`-style format
  used by `encode_raw`) separately, since the two format strings differ;
* `Bytes` payloads are byte values.
-/
inductive Cell where
  | null
  | bool (b : Bool)
  | string (s : List Char)
  | i16 (i : Int)
  | i32 (i : Int)
  | i64 (i : Int)
  | f32 (bits : Nat) (display : List Char)
  | f64 (bits : Nat) (display : List Char)
  | numeric (n : List Char)
  | date (t : List Char)
  | time (t : List Char)
  | timeStamp (display : List Char) (wire : List Char)
  | timeStampTz (display : List Char) (wire : List Char)
  | uuid (u : List Char)
  | bytes (b : List Nat)
deriving DecidableEq

/-- `conversions::table_row::TableRow`: an ordered list of cells. -/
structure TableRow where
  values : List Cell
deriving DecidableEq

/-- Upstream table identifier (`table::TableId`). -/
abbrev TableId := Nat

/-- `table::TableName`: `(schema, name)` pair. -/
structure TableName where
  schema : List Char
  name : List Char
deriving DecidableEq

/-- PostgreSQL column types as matched by `bigquery.rs`; every type other
than the named ones falls into the wildcard arm and is modelled by the
`other` constructor carrying the upstream OID. -/
inductive PgType where
  | bool
  | char
  | bpchar
  | varchar
  | name
  | text
  | int2
  | int4
  | int8
  | float4
  | float8
  | numeric
  | date
  | time
  | timestamp
  | timestamptz
  | uuid
  | bytea
  | other (oid : Nat)
deriving DecidableEq

/-- `table::ColumnSchema` (fields per spec §3; `bigquery.rs` reads `name`,
`typ`, `nullable` and `identity`). -/
structure ColumnSchema where
  name : List Char
  typ : PgType
  modifier : Int
  nullable : Bool
  identity : Bool
deriving DecidableEq

/-- `table::TableSchema`. -/
structure TableSchema where
  table_id : TableId
  table_name : TableName
  column_schemas : List ColumnSchema
deriving DecidableEq

/-! ## SQL literal rendering (`BigQueryClient::cell_to_query_value`) -/

/-- `BigQueryClient::cell_to_query_value(cell, &mut s)`: appends the SQL
rendering of `cell` to `s`.  `format!("{b}")` on a `bool` is
`"true"`/`"false"`; `format!("{i}")` on an integer is its decimal rendering;
quoted variants wrap the payload in single quotes with no escaping; `Bytes`
maps each byte to the `char` of the same code point inside `b'...'`. -/
def cellToQueryValue (cell : Cell) (s : List Char) : List Char :=
  match cell with
  | Cell.null => s ++ "null".toList
  | Cell.bool b => s ++ (if b then "true".toList else "false".toList)
  | Cell.string str => s ++ [Char.ofNat 39] ++ str ++ [Char.ofNat 39]
  | Cell.i16 i => s ++ (toString i).toList
  | Cell.i32 i => s ++ (toString i).toList
  | Cell.i64 i => s ++ (toString i).toList
  | Cell.f32 _ d => s ++ d
  | Cell.f64 _ d => s ++ d
  | Cell.numeric n => s ++ n
  | Cell.date t => s ++ [Char.ofNat 39] ++ t ++ [Char.ofNat 39]
  | Cell.time t => s ++ [Char.ofNat 39] ++ t ++ [Char.ofNat 39]
  | Cell.timeStamp d _ => s ++ [Char.ofNat 39] ++ d ++ [Char.ofNat 39]
  | Cell.timeStampTz d _ => s ++ [Char.ofNat 39] ++ d ++ [Char.ofNat 39]
  | Cell.uuid u => s ++ [Char.ofNat 39] ++ u ++ [Char.ofNat 39]
  | Cell.bytes b =>
      s ++ "b".toList ++ [Char.ofNat 39] ++ b.map Char.ofNat ++ [Char.ofNat 39]

/-- `BigQueryClient::create_insert_row_query` (the `values(...)` list). -/
def createInsertRowQueryValues : List Cell → List Char
  | [] => []
  | [c] => cellToQueryValue c []
  | c :: rest => cellToQueryValue c [] ++ [','] ++ createInsertRowQueryValues rest

/-- The loop body of `create_update_row_query`: walks
`table_row.values.iter().zip(column_schemas)` appending
`<name> = <value>,` for every non-identity column and recording whether a
trailing comma must be removed. -/
def updateSetLoop : List (Cell × ColumnSchema) → List Char → Bool → List Char × Bool
  | [], s, removeComma => (s, removeComma)
  | (cell, col) :: rest, s, removeComma =>
      if !col.identity then
        updateSetLoop rest (cellToQueryValue cell (s ++ col.name ++ " = ".toList) ++ [',']) true
      else
        updateSetLoop rest s removeComma

/-- The loop body of `add_identities_where_clause`: appends
`<name> = <value> and ` for every identity column and records whether a
trailing ` and ` must be removed. -/
def whereLoop : List (Cell × ColumnSchema) → List Char → Bool → List Char × Bool
  | [], s, removeAnd => (s, removeAnd)
  | (cell, col) :: rest, s, removeAnd =>
      if col.identity then
        whereLoop rest (cellToQueryValue cell (s ++ col.name ++ " = ".toList) ++ " and ".toList) true
      else
        whereLoop rest s removeAnd

/-- `BigQueryClient::add_identities_where_clause`: appends ` where ` and the
identity-column conditions, popping the five characters of the final
`" and "` when at least one condition was written. -/
def addIdentitiesWhereClause (s : List Char) (columnSchemas : List ColumnSchema)
    (tableRow : TableRow) : List Char :=
  let r := whereLoop (tableRow.values.zip columnSchemas) (s ++ " where ".toList) false
  if r.2 then r.1.dropLast.dropLast.dropLast.dropLast.dropLast else r.1

/-- `BigQueryClient::create_update_row_query`. -/
def createUpdateRowQuery (tableName : List Char) (columnSchemas : List ColumnSchema)
    (tableRow : TableRow) : List Char :=
  let s := "update ".toList ++ tableName ++ " set ".toList
  let r := updateSetLoop (tableRow.values.zip columnSchemas) s false
  let s := if r.2 then r.1.dropLast else r.1
  addIdentitiesWhereClause s columnSchemas tableRow

/-- `BigQueryClient::create_delete_row_query`. -/
def createDeleteRowQuery (tableName : List Char) (columnSchemas : List ColumnSchema)
    (tableRow : TableRow) : List Char :=
  addIdentitiesWhereClause ("delete from ".toList ++ tableName) columnSchemas tableRow

/-! Declarative characterisations used to state what the builders produce. -/

/-- The text `<name> = <value>` for one (cell, column) pair. -/
def condText (p : Cell × ColumnSchema) : List Char :=
  p.2.name ++ " = ".toList ++ cellToQueryValue p.1 []

/-- The `<name> = <value>` conditions of exactly the identity columns, in
column order. -/
def identityConds (pairs : List (Cell × ColumnSchema)) : List (List Char) :=
  (pairs.filter fun p => p.2.identity).map condText

/-- The `<name> = <value>` assignments of exactly the non-identity columns,
in column order. -/
def nonIdentityAssigns (pairs : List (Cell × ColumnSchema)) : List (List Char) :=
  (pairs.filter fun p => !p.2.identity).map condText

/-- Join a list of strings with a separator (no trailing separator). -/
def sepJoin (sep : List Char) : List (List Char) → List Char
  | [] => []
  | [x] => x
  | x :: xs => x ++ sep ++ sepJoin sep xs

/-- Join a list of strings, every element followed by the separator
(the shape the imperative loops build before popping). -/
def trailJoin (sep : List Char) : List (List Char) → List Char
  | [] => []
  | x :: xs => x ++ sep ++ trailJoin sep xs

/-! ## Type mapping (`postgres_type_to_bigquery_type`) -/

/-- `BigQueryClient::postgres_type_to_bigquery_type`. -/
def postgresTypeToBigqueryType : PgType → String
  | PgType.bool => "bool"
  | PgType.char | PgType.bpchar | PgType.varchar | PgType.name | PgType.text => "string"
  | PgType.int2 | PgType.int4 | PgType.int8 => "int64"
  | PgType.float4 | PgType.float8 => "float64"
  | PgType.numeric => "bignumeric"
  | PgType.date => "date"
  | PgType.time => "time"
  | PgType.timestamp | PgType.timestamptz => "timestamp"
  | PgType.uuid => "string"
  | PgType.bytea => "bytes"
  | PgType.other _ => "bytes"

/-! ## Protobuf wire encoding (`impl Message for TableRow`)

Model of the `prost::encoding` primitives the implementation calls.  Buffers
are `List Nat` of byte values; a protobuf varint is the little-endian
base-128 encoding with continuation bits. -/

/-- Protobuf varint encoding of an unsigned 64-bit value. -/
def varint (n : Nat) : List Nat :=
  if n < 128 then [n] else (n % 128 + 128) :: varint (n / 128)
termination_by n
decreasing_by exact Nat.div_lt_self (by omega) (by omega)

/-- `prost::encoding::encoded_len_varint`. -/
def varintLen (n : Nat) : Nat := (varint n).length

/-- `prost::encoding::encode_key`: the field key is the varint of
`tag << 3 | wire_type`. -/
def protoKey (tag wireType : Nat) : List Nat := varint (tag * 8 + wireType)

/-- `prost::encoding::key_len`. -/
def protoKeyLen (tag wireType : Nat) : Nat := varintLen (tag * 8 + wireType)

/-- Reinterpret a signed 64-bit value as unsigned (`as u64`); `i32 as u64`
in prost's `int32` codec sign-extends first, so the same reinterpretation
applies to the 32-bit codecs. -/
def i64AsU64 (i : Int) : Nat := (i % (2 : Int) ^ 64).toNat

/-- Protobuf zigzag mapping used by the `sint32`/`sint64` codecs:
`(value << 1) ^ (value >> 63)`. -/
def zigzag (i : Int) : Nat := if 0 ≤ i then (2 * i).toNat else (-(2 * i) - 1).toNat

/-- UTF-8 encoding of one scalar value. -/
def charUtf8 (c : Char) : List Nat :=
  let n := c.toNat
  if n < 128 then [n]
  else if n < 2048 then [192 + n / 64, 128 + n % 64]
  else if n < 65536 then [224 + n / 4096, 128 + n / 64 % 64, 128 + n % 64]
  else [240 + n / 262144, 128 + n / 4096 % 64, 128 + n / 64 % 64, 128 + n % 64]

/-- UTF-8 bytes of a string. -/
def utf8Bytes (s : List Char) : List Nat := (s.map charUtf8).flatten

/-- Little-endian bytes of a `k`-byte value. -/
def leBytes (k : Nat) (bits : Nat) : List Nat :=
  (List.range k).map fun i => bits / 256 ^ i % 256

/-- `prost::encoding::bool::encode`. -/
def boolEncode (tag : Nat) (b : Bool) : List Nat :=
  protoKey tag 0 ++ [if b then 1 else 0]

/-- `prost::encoding::string::encode` (length-delimited UTF-8 bytes). -/
def stringEncode (tag : Nat) (s : List Char) : List Nat :=
  protoKey tag 2 ++ varint (utf8Bytes s).length ++ utf8Bytes s

/-- `prost::encoding::bytes::encode`. -/
def bytesEncode (tag : Nat) (b : List Nat) : List Nat :=
  protoKey tag 2 ++ varint b.length ++ b

/-- `prost::encoding::int32::encode` / `int64::encode`: the value is
sign-extended to 64 bits, reinterpreted as `u64` and written as a varint. -/
def intEncode (tag : Nat) (i : Int) : List Nat :=
  protoKey tag 0 ++ varint (i64AsU64 i)

/-- `prost::encoding::float::encode` (fixed 4 little-endian bytes of the
IEEE bit pattern). -/
def floatEncode (tag : Nat) (bits : Nat) : List Nat :=
  protoKey tag 5 ++ leBytes 4 bits

/-- `prost::encoding::double::encode`. -/
def doubleEncode (tag : Nat) (bits : Nat) : List Nat :=
  protoKey tag 1 ++ leBytes 8 bits

/-- `prost::encoding::string::encoded_len`. -/
def stringEncodedLen (tag : Nat) (s : List Char) : Nat :=
  protoKeyLen tag 2 + varintLen (utf8Bytes s).length + (utf8Bytes s).length

/-- `prost::encoding::bytes::encoded_len`. -/
def bytesEncodedLen (tag : Nat) (b : List Nat) : Nat :=
  protoKeyLen tag 2 + varintLen b.length + b.length

/-- `prost::encoding::sint32::encoded_len` / `sint64::encoded_len`
(zigzag-mapped varint length). -/
def sintEncodedLen (tag : Nat) (i : Int) : Nat :=
  protoKeyLen tag 0 + varintLen (zigzag i)

/-- The per-cell bytes written by `TableRow::encode_raw` at a given tag. -/
def cellEncode (tag : Nat) (cell : Cell) : List Nat :=
  match cell with
  | Cell.null => []
  | Cell.bool b => boolEncode tag b
  | Cell.string s => stringEncode tag s
  | Cell.i16 i => intEncode tag i
  | Cell.i32 i => intEncode tag i
  | Cell.i64 i => intEncode tag i
  | Cell.f32 bits _ => floatEncode tag bits
  | Cell.f64 bits _ => doubleEncode tag bits
  | Cell.numeric n => stringEncode tag n
  | Cell.date t => stringEncode tag t
  | Cell.time t => stringEncode tag t
  | Cell.timeStamp _ w => stringEncode tag w
  | Cell.timeStampTz _ w => stringEncode tag w
  | Cell.uuid u => stringEncode tag u
  | Cell.bytes b => bytesEncode tag b

/-- The loop of `TableRow::encode_raw`: tags start at 1 and increment for
every cell (including `Null`, which writes nothing). -/
def encodeCells (tag : Nat) : List Cell → List Nat
  | [] => []
  | c :: rest => cellEncode tag c ++ encodeCells (tag + 1) rest

/-- `TableRow::encode_raw(&self, buf)`: appends the encoding to `buf`. -/
def TableRow.encodeRaw (row : TableRow) (buf : List Nat) : List Nat :=
  buf ++ encodeCells 1 row.values

/-- The per-cell length counted by `TableRow::encoded_len` at a given tag.
Note the code counts `sint32::encoded_len`/`sint64::encoded_len` (zigzag)
for `I16`/`I32`/`I64` although `encode_raw` writes the `int32`/`int64`
(plain varint) encoding. -/
def cellEncodedLen (tag : Nat) (cell : Cell) : Nat :=
  match cell with
  | Cell.null => 0
  | Cell.bool _ => protoKeyLen tag 0 + 1
  | Cell.string s => stringEncodedLen tag s
  | Cell.i16 i => sintEncodedLen tag i
  | Cell.i32 i => sintEncodedLen tag i
  | Cell.i64 i => sintEncodedLen tag i
  | Cell.f32 _ _ => protoKeyLen tag 5 + 4
  | Cell.f64 _ _ => protoKeyLen tag 1 + 8
  | Cell.numeric n => stringEncodedLen tag n
  | Cell.date t => stringEncodedLen tag t
  | Cell.time t => stringEncodedLen tag t
  | Cell.timeStamp _ w => stringEncodedLen tag w
  | Cell.timeStampTz _ w => stringEncodedLen tag w
  | Cell.uuid u => stringEncodedLen tag u
  | Cell.bytes b => bytesEncodedLen tag b

/-- The loop of `TableRow::encoded_len`. -/
def encodedLenCells (tag : Nat) : List Cell → Nat
  | [] => 0
  | c :: rest => cellEncodedLen tag c + encodedLenCells (tag + 1) rest

/-- `TableRow::encoded_len`. -/
def TableRow.encodedLen (row : TableRow) : Nat := encodedLenCells 1 row.values

/-- Outcome of running a fallible Rust function that may also panic. -/
inductive Outcome (α : Type) where
  | ok (a : α)
  | err (e : String)
  | panicked (msg : String)
deriving DecidableEq

/-- `<TableRow as Message>::merge_field`: the body is
`unimplemented!("merge_field not implemented yet")`, which panics on every
input regardless of tag, wire type or buffer contents. -/
def TableRow.mergeField (_row : TableRow) (_tag : Nat) (_wireType : Nat)
    (_buf : List Nat) : Outcome TableRow :=
  Outcome.panicked "not implemented: merge_field not implemented yet"

/-! ## Table descriptor (`impl From<&TableSchema> for TableDescriptor`) -/

/-- `gcp_bigquery_client::storage::ColumnType` (the constructors used). -/
inductive ColumnType where
  | bool
  | string
  | int64
  | float32
  | float64
  | bytes
deriving DecidableEq

/-- `gcp_bigquery_client::storage::FieldDescriptor`. -/
structure FieldDescriptor where
  number : Nat
  name : List Char
  typ : ColumnType
deriving DecidableEq

/-- `gcp_bigquery_client::storage::TableDescriptor`. -/
structure TableDescriptor where
  field_descriptors : List FieldDescriptor
deriving DecidableEq

/-- The per-column `ColumnType` match inside `From<&TableSchema>`. -/
def columnTypeOf : PgType → ColumnType
  | PgType.bool => ColumnType.bool
  | PgType.char | PgType.bpchar | PgType.varchar | PgType.name | PgType.text =>
      ColumnType.string
  | PgType.int2 => ColumnType.int64
  | PgType.int4 => ColumnType.int64
  | PgType.int8 => ColumnType.int64
  | PgType.float4 => ColumnType.float32
  | PgType.float8 => ColumnType.float64
  | PgType.numeric => ColumnType.string
  | PgType.date => ColumnType.string
  | PgType.time => ColumnType.string
  | PgType.timestamp => ColumnType.string
  | PgType.timestamptz => ColumnType.string
  | PgType.uuid => ColumnType.string
  | PgType.bytea => ColumnType.bytes
  | PgType.other _ => ColumnType.bytes

/-- The loop of `From<&TableSchema> for TableDescriptor`: `number` starts at
1 and increments per column. -/
def fieldLoop (number : Nat) : List ColumnSchema → List FieldDescriptor
  | [] => []
  | c :: rest => ⟨number, c.name, columnTypeOf c.typ⟩ :: fieldLoop (number + 1) rest

/-- `From<&TableSchema> for TableDescriptor`: after the loop, `number`
equals `column_schemas.len() + 1` and an extra `_CHANGE_TYPE` string field
is pushed with that number. -/
def tableDescriptorOfSchema (ts : TableSchema) : TableDescriptor :=
  ⟨fieldLoop 1 ts.column_schemas ++
    [⟨ts.column_schemas.length + 1, "_CHANGE_TYPE".toList, ColumnType.string⟩]⟩

/-! ## `get_last_lsn` (`BigQueryClient::get_last_lsn`)

The result set of the `select lsn from …last_lsn` query is modelled as the
list of its rows; each row's `get_i64_by_name("lsn")` either fails with a
`BQError` (the `?` operator), yields no value (the `.expect(...)` panics) or
yields the stored `i64`. -/

/-- `BigQueryClient::get_last_lsn`: if the result set has no row the
function panics (`panic!("failed to get lsn")`) instead of returning an
error; otherwise the first row's `i64` is reinterpreted as a `u64` LSN. -/
def getLastLsn (rows : List (Except String (Option Int))) : Outcome Nat :=
  match rows with
  | [] => Outcome.panicked "failed to get lsn"
  | Except.error e :: _ => Outcome.err e
  | Except.ok none :: _ =>
      Outcome.panicked "no column named `lsn` found in query result"
  | Except.ok (some lsn) :: _ => Outcome.ok (i64AsU64 lsn)

/-! ## CLI binary (`examples/delta.rs`)

`main` awaits `main_impl()`; on `Err(e)` it logs `error!("{e}")` and then
returns `Ok(())`, so the process exit code is 0 on both paths. -/

/-- `delta.rs::main`, given the result of `main_impl().await`: returns the
process exit code together with the lines logged via `error!`. -/
def deltaMain (r : Except String Unit) : Nat × List String :=
  match r with
  | Except.error e => (0, [e])
  | Except.ok _ => (0, [])

/-! ## Control-plane pipeline resource (`api` crate)

The HTTP handlers themselves are not part of the sources under review (only
`tests/api/pipelines.rs` is), so the resource store and handlers are
modelled from the spec. -/

/-- `api::db::pipelines::BatchConfig`. -/
structure BatchConfig where
  max_size : Nat
  max_fill_secs : Nat
deriving DecidableEq

/-- `api::db::pipelines::PipelineConfig`. -/
structure PipelineConfig where
  config : BatchConfig
deriving DecidableEq

/-- A stored pipeline row: tenant-scoped, with its own id plus the source,
sink and config references. -/
structure PipelineRow where
  id : Nat
  tenant_id : Nat
  source_id : Nat
  sink_id : Nat
  config : PipelineConfig
deriving DecidableEq

/-- The body of a pipeline read response
(`test_app::PipelineResponse`). -/
structure PipelineResponse where
  id : Nat
  tenant_id : Nat
  source_id : Nat
  sink_id : Nat
  config : PipelineConfig
deriving DecidableEq

/-- An update request body (`test_app::UpdatePipelineRequest`). -/
structure UpdatePipelineRequest where
  source_id : Nat
  sink_id : Nat
  config : PipelineConfig
deriving DecidableEq

/-- Modelled from the spec: pipelines are tenant-scoped resources, so a
lookup matches on both the tenant id and the pipeline id. -/
def findPipeline (ps : List PipelineRow) (tenant pid : Nat) : Option PipelineRow :=
  ps.find? fun p => p.tenant_id == tenant && p.id == pid

/-- Modelled from the spec: the `read_pipeline` handler (not under `src/`)
returns 404 when the tenant-scoped pipeline does not exist and 200 with the
pipeline's fields — the response `id` being the pipeline's own identifier —
when it does. -/
def readPipeline (ps : List PipelineRow) (tenant pid : Nat) :
    Nat × Option PipelineResponse :=
  match findPipeline ps tenant pid with
  | none => (404, none)
  | some p => (200, some ⟨p.id, p.tenant_id, p.source_id, p.sink_id, p.config⟩)

/-- Modelled from the spec: the variant behaviour asserted by the claim and
by the spec's §9 note — a `read_pipeline` handler whose response `id` field
carries the pipeline's `sink_id` instead of the pipeline's own id. -/
def readPipelineSinkIdVariant (ps : List PipelineRow) (tenant pid : Nat) :
    Nat × Option PipelineResponse :=
  match findPipeline ps tenant pid with
  | none => (404, none)
  | some p => (200, some ⟨p.sink_id, p.tenant_id, p.source_id, p.sink_id, p.config⟩)

/-- Modelled from the spec: the `update_pipeline` handler — 404 when the
tenant-scoped pipeline does not exist, otherwise 200 and the stored row's
`source_id`, `sink_id` and `config` are replaced. -/
def updatePipeline (ps : List PipelineRow) (tenant pid : Nat)
    (req : UpdatePipelineRequest) : Nat × List PipelineRow :=
  match findPipeline ps tenant pid with
  | none => (404, ps)
  | some _ =>
      (200, ps.map fun p =>
        if p.tenant_id == tenant && p.id == pid then
          ⟨p.id, p.tenant_id, req.source_id, req.sink_id, req.config⟩
        else p)

/-- Modelled from the spec: the `delete_pipeline` handler — 404 when the
tenant-scoped pipeline does not exist, otherwise 200 and the row is
removed. -/
def deletePipeline (ps : List PipelineRow) (tenant pid : Nat) :
    Nat × List PipelineRow :=
  match findPipeline ps tenant pid with
  | none => (404, ps)
  | some _ => (200, ps.filter fun p => !(p.tenant_id == tenant && p.id == pid))

/-- A status code is a success exactly when it is in the 2xx range. -/
def is2xx (status : Nat) : Prop := 200 ≤ status ∧ status < 300

/-! The concrete state reached by the `an_existing_pipeline_can_be_updated`
test in `tests/api/pipelines.rs`: tenant 1 creates source 1, sink 1 and
pipeline 1 (referencing source 1 / sink 1), then creates source 2 and
sink 2 and updates pipeline 1 to reference them.  Ids are per-resource
sequences starting at 1, as asserted by `pipeline_can_be_created`. -/

/-- The batch config used by `new_pipeline_config()` in the tests. -/
def newPipelineConfig : PipelineConfig := ⟨⟨1000, 5⟩⟩

/-- The batch config used by `updated_pipeline_config()` in the tests. -/
def updatedPipelineConfig : PipelineConfig := ⟨⟨2000, 10⟩⟩

/-- Store contents after the create step of the update test. -/
def updateTestStoreBefore : List PipelineRow := [⟨1, 1, 1, 1, newPipelineConfig⟩]

/-- Store contents after `update_pipeline(tenant 1, pipeline 1,
{source 2, sink 2, updated config})`. -/
def updateTestStoreAfter : List PipelineRow :=
  (updatePipeline updateTestStoreBefore 1 1 ⟨2, 2, updatedPipelineConfig⟩).2

/-- The assertions `an_existing_pipeline_can_be_updated` makes on the
response of the final `read_pipeline(tenant 1, pipeline 1)`, as a function
of the read handler: status success, `id = pipeline_id = 1`,
`tenant_id = 1`, `source_id = 2`, `sink_id = 2`, `config = updated`. -/
def updateTestAssertions
    (readHandler : List PipelineRow → Nat → Nat → Nat × Option PipelineResponse) : Bool :=
  match readHandler updateTestStoreAfter 1 1 with
  | (status, some r) =>
      decide (200 ≤ status ∧ status < 300) && r.id == 1 && r.tenant_id == 1 &&
        r.source_id == 2 && r.sink_id == 2 && r.config == updatedPipelineConfig
  | (_, none) => false

/-- Store contents in `an_existing_pipeline_can_be_read`: tenant 1,
source 1, sink 1, pipeline 1. -/
def readTestStore : List PipelineRow := [⟨1, 1, 1, 1, newPipelineConfig⟩]

/-- The assertions `an_existing_pipeline_can_be_read` makes on the response
of `read_pipeline(tenant 1, pipeline 1)`: status success, `id = sink_id
(= 1)`, `tenant_id = 1`, `source_id = 1`, `sink_id = 1`, `config = new`. -/
def readTestAssertions
    (readHandler : List PipelineRow → Nat → Nat → Nat × Option PipelineResponse) : Bool :=
  match readHandler readTestStore 1 1 with
  | (status, some r) =>
      decide (200 ≤ status ∧ status < 300) && r.id == 1 && r.tenant_id == 1 &&
        r.source_id == 1 && r.sink_id == 1 && r.config == newPipelineConfig
  | (_, none) => false

/-! ## Spec-side predicate for C2 (refinement comparison)

The spec asks for "a correctly escaped single-quoted string"; in standard
SQL a single-quoted literal escapes an interior quote by doubling it. -/

/-- Modelled from the spec: scanner for the body of a single-quoted SQL
literal — a quote either ends the literal (nothing may follow) or must be
doubled; any other character is ordinary. -/
def specQuotedBody : List Char → Bool
  | [] => false
  | [c] => c = Char.ofNat 39
  | c :: d :: rest =>
      if c = Char.ofNat 39 then
        if d = Char.ofNat 39 then specQuotedBody rest else false
      else specQuotedBody (d :: rest)

/-- Modelled from the spec: a correctly escaped single-quoted SQL string
literal — an opening quote followed by a well-formed body that ends at the
closing quote. -/
def specEscapedSqlStringLiteral : List Char → Bool
  | c :: rest => if c = Char.ofNat 39 then specQuotedBody rest else false
  | [] => false

/-! # Theorems -/

/-! ### Helper lemmas for the SQL builders -/

theorem cellToQueryValue_append (c : Cell) (s : List Char) :
    cellToQueryValue c s = s ++ cellToQueryValue c [] := by
  cases c <;> simp [cellToQueryValue]

theorem trailJoin_eq_sepJoin (sep : List Char) (l : List (List Char)) (h : l ≠ []) :
    trailJoin sep l = sepJoin sep l ++ sep := by
  induction l with
  | nil => exact absurd rfl h
  | cons x xs ih =>
    cases xs with
    | nil => simp [trailJoin, sepJoin]
    | cons y ys =>
      calc trailJoin sep (x :: y :: ys) = x ++ sep ++ trailJoin sep (y :: ys) := rfl
        _ = x ++ sep ++ (sepJoin sep (y :: ys) ++ sep) := by rw [ih (by simp)]
        _ = sepJoin sep (x :: y :: ys) ++ sep := by simp [sepJoin, List.append_assoc]

theorem drop5_and (x : List Char) :
    (x ++ " and ".toList).dropLast.dropLast.dropLast.dropLast.dropLast = x := by
  have h : " and ".toList = [' ', 'a', 'n', 'd', ' '] := rfl
  rw [h]
  simp [List.dropLast_append_cons, List.dropLast]

theorem whereLoop_eq (pairs : List (Cell × ColumnSchema)) :
    ∀ (s : List Char) (b : Bool),
      whereLoop pairs s b =
        (s ++ trailJoin " and ".toList (identityConds pairs),
         b || pairs.any fun p => p.2.identity) := by
  induction pairs with
  | nil => intro s b; simp [whereLoop, identityConds, trailJoin]
  | cons hd tl ih =>
    intro s b
    obtain ⟨cell, col⟩ := hd
    rw [whereLoop]
    cases hcol : col.identity
    · rw [if_neg (by simp [hcol]), ih]
      simp [identityConds, List.filter_cons, hcol]
    · rw [if_pos (by simp [hcol]), ih,
        cellToQueryValue_append cell (s ++ col.name ++ " = ".toList)]
      simp [identityConds, trailJoin, condText, List.filter_cons, hcol,
        List.append_assoc]

theorem updateSetLoop_eq (pairs : List (Cell × ColumnSchema)) :
    ∀ (s : List Char) (b : Bool),
      updateSetLoop pairs s b =
        (s ++ trailJoin [','] (nonIdentityAssigns pairs),
         b || pairs.any fun p => !p.2.identity) := by
  induction pairs with
  | nil => intro s b; simp [updateSetLoop, nonIdentityAssigns, trailJoin]
  | cons hd tl ih =>
    intro s b
    obtain ⟨cell, col⟩ := hd
    rw [updateSetLoop]
    cases hcol : col.identity
    · rw [if_pos (by simp [hcol]), ih,
        cellToQueryValue_append cell (s ++ col.name ++ " = ".toList)]
      simp [nonIdentityAssigns, trailJoin, condText, List.filter_cons, hcol,
        List.append_assoc]
    · rw [if_neg (by simp [hcol]), ih]
      simp [nonIdentityAssigns, List.filter_cons, hcol]

theorem identityConds_ne_nil_of_any (pairs : List (Cell × ColumnSchema))
    (hany : (pairs.any fun p => p.2.identity) = true) :
    identityConds pairs ≠ [] := by
  intro hc
  obtain ⟨x, hx, hpx⟩ := List.any_eq_true.mp hany
  rw [identityConds, List.map_eq_nil_iff, List.filter_eq_nil_iff] at hc
  exact hc x hx hpx

theorem identityConds_eq_nil_of_not_any (pairs : List (Cell × ColumnSchema))
    (hany : (pairs.any fun p => p.2.identity) = false) :
    identityConds pairs = [] := by
  rw [identityConds, List.map_eq_nil_iff, List.filter_eq_nil_iff]
  intro a ha hpa
  rw [List.any_eq_false] at hany
  exact hany a ha hpa

theorem nonIdentityAssigns_ne_nil_of_any (pairs : List (Cell × ColumnSchema))
    (hany : (pairs.any fun p => !p.2.identity) = true) :
    nonIdentityAssigns pairs ≠ [] := by
  intro hc
  obtain ⟨x, hx, hpx⟩ := List.any_eq_true.mp hany
  rw [nonIdentityAssigns, List.map_eq_nil_iff, List.filter_eq_nil_iff] at hc
  exact hc x hx hpx

theorem nonIdentityAssigns_eq_nil_of_not_any (pairs : List (Cell × ColumnSchema))
    (hany : (pairs.any fun p => !p.2.identity) = false) :
    nonIdentityAssigns pairs = [] := by
  rw [nonIdentityAssigns, List.map_eq_nil_iff, List.filter_eq_nil_iff]
  intro a ha hpa
  rw [List.any_eq_false] at hany
  exact hany a ha hpa

theorem addIdentitiesWhereClause_eq (s : List Char) (cols : List ColumnSchema)
    (row : TableRow) :
    addIdentitiesWhereClause s cols row =
      s ++ " where ".toList ++
        sepJoin " and ".toList (identityConds (row.values.zip cols)) := by
  unfold addIdentitiesWhereClause
  rw [whereLoop_eq]
  cases hany : (row.values.zip cols).any fun p => p.2.identity
  · rw [identityConds_eq_nil_of_not_any _ hany]
    simp [trailJoin, sepJoin]
  · rw [trailJoin_eq_sepJoin _ _ (identityConds_ne_nil_of_any _ hany)]
    have h5 := drop5_and
      (s ++ " where ".toList ++ sepJoin " and ".toList (identityConds (row.values.zip cols)))
    simp only [List.append_assoc] at h5 ⊢
    exact h5

theorem dropLast_cons_append_singleton (c : Char) (x : List Char) (d : Char) :
    (c :: (x ++ [d])).dropLast = c :: x := by
  have h : c :: (x ++ [d]) = (c :: x) ++ [d] := by simp
  rw [h, List.dropLast_concat]

theorem createUpdateRowQuery_eq (tableName : List Char) (cols : List ColumnSchema)
    (row : TableRow) :
    createUpdateRowQuery tableName cols row =
      "update ".toList ++ tableName ++ " set ".toList ++
        sepJoin [','] (nonIdentityAssigns (row.values.zip cols)) ++
        " where ".toList ++
        sepJoin " and ".toList (identityConds (row.values.zip cols)) := by
  unfold createUpdateRowQuery
  dsimp only
  rw [updateSetLoop_eq, addIdentitiesWhereClause_eq]
  cases hany : (row.values.zip cols).any fun p => !p.2.identity
  · rw [nonIdentityAssigns_eq_nil_of_not_any _ hany]
    simp [trailJoin, sepJoin]
  · rw [trailJoin_eq_sepJoin _ _ (nonIdentityAssigns_ne_nil_of_any _ hany)]
    simp [← List.append_assoc, List.dropLast_concat, dropLast_cons_append_singleton]

theorem createDeleteRowQuery_eq (tableName : List Char) (cols : List ColumnSchema)
    (row : TableRow) :
    createDeleteRowQuery tableName cols row =
      "delete from ".toList ++ tableName ++ " where ".toList ++
        sepJoin " and ".toList (identityConds (row.values.zip cols)) := by
  unfold createDeleteRowQuery
  rw [addIdentitiesWhereClause_eq]

/-- C1: for every table schema and table row, the update SQL built by
`create_update_row_query` assigns new values to exactly the columns not
marked identity (in column order), and the where clause built by
`add_identities_where_clause` — shared by the update and delete queries —
consists of exactly the `<name> = <value>` equalities of the columns marked
identity, conjoined with `and`; so update and delete rows are matched
solely by the replica-identity columns. -/
theorem c1_update_delete_match_solely_replica_identity (tableName : List Char)
    (cols : List ColumnSchema) (row : TableRow) :
    createUpdateRowQuery tableName cols row =
      "update ".toList ++ tableName ++ " set ".toList ++
        sepJoin [','] (nonIdentityAssigns (row.values.zip cols)) ++
        " where ".toList ++
        sepJoin " and ".toList (identityConds (row.values.zip cols)) ∧
    createDeleteRowQuery tableName cols row =
      "delete from ".toList ++ tableName ++ " where ".toList ++
        sepJoin " and ".toList (identityConds (row.values.zip cols)) :=
  ⟨createUpdateRowQuery_eq tableName cols row, createDeleteRowQuery_eq tableName cols row⟩

/-- C5: `postgres_type_to_bigquery_type` maps every PostgreSQL column type
to the BigQuery DDL type of the spec's canonical reverse-mapping table,
with every unlisted type mapped to `bytes`. -/
theorem c5_postgres_type_to_bigquery_type_table :
    postgresTypeToBigqueryType PgType.bool = "bool" ∧
    postgresTypeToBigqueryType PgType.char = "string" ∧
    postgresTypeToBigqueryType PgType.bpchar = "string" ∧
    postgresTypeToBigqueryType PgType.varchar = "string" ∧
    postgresTypeToBigqueryType PgType.name = "string" ∧
    postgresTypeToBigqueryType PgType.text = "string" ∧
    postgresTypeToBigqueryType PgType.int2 = "int64" ∧
    postgresTypeToBigqueryType PgType.int4 = "int64" ∧
    postgresTypeToBigqueryType PgType.int8 = "int64" ∧
    postgresTypeToBigqueryType PgType.float4 = "float64" ∧
    postgresTypeToBigqueryType PgType.float8 = "float64" ∧
    postgresTypeToBigqueryType PgType.numeric = "bignumeric" ∧
    postgresTypeToBigqueryType PgType.date = "date" ∧
    postgresTypeToBigqueryType PgType.time = "time" ∧
    postgresTypeToBigqueryType PgType.timestamp = "timestamp" ∧
    postgresTypeToBigqueryType PgType.timestamptz = "timestamp" ∧
    postgresTypeToBigqueryType PgType.uuid = "string" ∧
    postgresTypeToBigqueryType PgType.bytea = "bytes" ∧
    (∀ oid, postgresTypeToBigqueryType (PgType.other oid) = "bytes") := by
  refine ⟨rfl, rfl, rfl, rfl, rfl, rfl, rfl, rfl, rfl, rfl, rfl, rfl, rfl, rfl,
    rfl, rfl, rfl, rfl, fun _ => rfl⟩

theorem fieldLoop_length (cols : List ColumnSchema) :
    ∀ k, (fieldLoop k cols).length = cols.length := by
  induction cols with
  | nil => intro k; rfl
  | cons c rest ih => intro k; simp [fieldLoop, ih]

theorem fieldLoop_getElem? (cols : List ColumnSchema) :
    ∀ k i (c : ColumnSchema), cols[i]? = some c →
      (fieldLoop k cols)[i]? = some (FieldDescriptor.mk (k + i) c.name (columnTypeOf c.typ)) := by
  induction cols with
  | nil => intro k i c h; simp at h
  | cons hd rest ih =>
    intro k i c h
    cases i with
    | zero => simp at h; simp [fieldLoop, h]
    | succ j =>
      simp at h
      have := ih (k + 1) j c h
      simp [fieldLoop, this]
      omega

/-- C6: for a table schema with `n` columns, the produced `TableDescriptor`
has exactly `n + 1` field descriptors; field `i` (for `i < n`) carries the
`i`-th column's name with field number `i + 1`, and the final field has
number `n + 1` and is a string column named `_CHANGE_TYPE`. -/
theorem c6_table_descriptor_adds_change_type_field (ts : TableSchema) :
    (tableDescriptorOfSchema ts).field_descriptors.length =
      ts.column_schemas.length + 1 ∧
    (∀ i (c : ColumnSchema), ts.column_schemas[i]? = some c →
      (tableDescriptorOfSchema ts).field_descriptors[i]? =
        some (FieldDescriptor.mk (i + 1) c.name (columnTypeOf c.typ))) ∧
    (tableDescriptorOfSchema ts).field_descriptors[ts.column_schemas.length]? =
      some (FieldDescriptor.mk (ts.column_schemas.length + 1) "_CHANGE_TYPE".toList
        ColumnType.string) := by
  refine ⟨?_, ?_, ?_⟩
  · simp [tableDescriptorOfSchema, fieldLoop_length]
  · intro i c h
    have hi : i < ts.column_schemas.length := by
      by_contra hge
      rw [List.getElem?_eq_none (by omega)] at h
      exact Option.noConfusion h
    rw [tableDescriptorOfSchema]
    rw [List.getElem?_append_left (by rw [fieldLoop_length]; exact hi)]
    have := fieldLoop_getElem? ts.column_schemas 1 i c h
    rw [this]
    simp [Nat.add_comm]
  · rw [tableDescriptorOfSchema]
    rw [List.getElem?_append]
    rw [fieldLoop_length]
    simp

/-- Witness for C6 at a concrete two-column schema. -/
theorem c6_witness :
    (tableDescriptorOfSchema
        ⟨7, ⟨"public".toList, "users".toList⟩,
          [⟨"id".toList, PgType.int4, 0, false, true⟩,
           ⟨"nm".toList, PgType.text, 0, true, false⟩]⟩).field_descriptors.length = 3 ∧
    (tableDescriptorOfSchema
        ⟨7, ⟨"public".toList, "users".toList⟩,
          [⟨"id".toList, PgType.int4, 0, false, true⟩,
           ⟨"nm".toList, PgType.text, 0, true, false⟩]⟩).field_descriptors[1]? =
      some (FieldDescriptor.mk 2 "nm".toList ColumnType.string) ∧
    (tableDescriptorOfSchema
        ⟨7, ⟨"public".toList, "users".toList⟩,
          [⟨"id".toList, PgType.int4, 0, false, true⟩,
           ⟨"nm".toList, PgType.text, 0, true, false⟩]⟩).field_descriptors[2]? =
      some (FieldDescriptor.mk 3 "_CHANGE_TYPE".toList ColumnType.string) := by
  refine ⟨(c6_table_descriptor_adds_change_type_field _).1, ?_, ?_⟩
  · exact (c6_table_descriptor_adds_change_type_field _).2.1 1
      ⟨"nm".toList, PgType.text, 0, true, false⟩ rfl
  · exact (c6_table_descriptor_adds_change_type_field _).2.2

theorem specQuotedBody_append_quote (s : List Char)
    (h : ∀ c ∈ s, c ≠ Char.ofNat 39) :
    specQuotedBody (s ++ [Char.ofNat 39]) = true := by
  induction s with
  | nil => simp [specQuotedBody]
  | cons c rest ih =>
    have hc : ¬(c = Char.ofNat 39) := h c (by simp)
    cases rest with
    | nil => simp [specQuotedBody, hc]
    | cons e rest2 =>
      simp only [List.cons_append, specQuotedBody, hc, if_false]
      exact ih fun d hd => h d (by simp [hd])

/-- C2 counterexample: rendering the `String` cell `a'b` yields `'a'b'`,
which is not a correctly escaped single-quoted SQL string literal. -/
theorem c2_counterexample_quote_not_escaped :
    cellToQueryValue (Cell.string ['a', Char.ofNat 39, 'b']) [] =
      [Char.ofNat 39, 'a', Char.ofNat 39, 'b', Char.ofNat 39] ∧
    specEscapedSqlStringLiteral
      (cellToQueryValue (Cell.string ['a', Char.ofNat 39, 'b']) []) = false := by
  constructor <;> rfl

/-- C2 amended: `cell_to_query_value` renders a `String` cell by wrapping
the raw payload in single quotes with no escaping at all; the result is a
correctly escaped single-quoted literal only when the payload itself
contains no single-quote character. -/
theorem c2_amended_string_rendering_unescaped (s acc : List Char) :
    cellToQueryValue (Cell.string s) acc =
      acc ++ [Char.ofNat 39] ++ s ++ [Char.ofNat 39] ∧
    ((∀ c ∈ s, c ≠ Char.ofNat 39) →
      specEscapedSqlStringLiteral ([Char.ofNat 39] ++ s ++ [Char.ofNat 39]) = true) := by
  constructor
  · rfl
  · intro h
    rw [List.append_assoc, List.singleton_append, specEscapedSqlStringLiteral]
    simp only [if_true, if_pos rfl]
    exact specQuotedBody_append_quote s h

/-- Witness for the amended C2 theorem at the quote-free payload `ab`. -/
theorem c2_witness :
    cellToQueryValue (Cell.string ['a', 'b']) [] =
      [] ++ [Char.ofNat 39] ++ ['a', 'b'] ++ [Char.ofNat 39] ∧
    specEscapedSqlStringLiteral
      ([Char.ofNat 39] ++ ['a', 'b'] ++ [Char.ofNat 39]) = true :=
  ⟨(c2_amended_string_rendering_unescaped ['a', 'b'] []).1,
   (c2_amended_string_rendering_unescaped ['a', 'b'] []).2 (by decide)⟩

/-- C3 (code bug): `merge_field` is `unimplemented!` and panics on every
input — in particular on the bytes `encode_raw` produces for the row
`[Bool(true)]` — so decoding can never recover any cell and the
decode∘encode round-trip required by the spec fails. -/
theorem c3_merge_field_unimplemented_panics :
    TableRow.mergeField (TableRow.mk [Cell.bool true]) 1 0
        (TableRow.encodeRaw (TableRow.mk [Cell.bool true]) []) =
      Outcome.panicked "not implemented: merge_field not implemented yet" ∧
    (∀ (row : TableRow) (tag wireType : Nat) (buf : List Nat),
      TableRow.mergeField row tag wireType buf =
        Outcome.panicked "not implemented: merge_field not implemented yet") :=
  ⟨rfl, fun _ _ _ _ => rfl⟩

/-- C4 (code bug): on the row `[I32(64)]`, `encode_raw` writes the two
bytes `[8, 64]` (field key, then the plain varint of 64 per the `int32`
codec), but `encoded_len` returns 3 because it counts the `sint32`
(zigzag) length of 64, whose varint `128` needs two bytes — violating the
prost `Message` length contract. -/
theorem c4_encoded_len_disagrees_with_encode_raw :
    TableRow.encodeRaw (TableRow.mk [Cell.i32 64]) [] = [8, 64] ∧
    (TableRow.encodeRaw (TableRow.mk [Cell.i32 64]) []).length = 2 ∧
    TableRow.encodedLen (TableRow.mk [Cell.i32 64]) = 3 := by
  have h8 : varint 8 = [8] := by simp [varint]
  have h64 : varint 64 = [64] := by simp [varint]
  have h128 : varint 128 = [128, 1] := by
    rw [varint]
    norm_num
    rw [varint]
    norm_num
  have hu : i64AsU64 64 = 64 := by decide
  have hz : zigzag 64 = 128 := by decide
  refine ⟨?_, ?_, ?_⟩
  · simp [TableRow.encodeRaw, encodeCells, cellEncode, intEncode, protoKey, hu, h8, h64]
  · simp [TableRow.encodeRaw, encodeCells, cellEncode, intEncode, protoKey, hu, h8, h64]
  · simp [TableRow.encodedLen, encodedLenCells, cellEncodedLen, sintEncodedLen,
      protoKeyLen, varintLen, hz, h8, h128]

/-- C7 counterexample: when `main_impl` returns an error, `main` still
returns `Ok(())`, so the process exit code is 0, not non-zero. -/
theorem c7_counterexample_exit_code_zero_on_error :
    (deltaMain (Except.error "pipeline error")).1 = 0 :=
  rfl

/-- C7 amended: the reference CLI binary exits with code 0 on clean
shutdown and also with code 0 on fatal error; the error is reported as a
single `error!` log line instead of a non-zero exit. -/
theorem c7_amended_exit_zero_on_both_paths (r : Except String Unit) :
    (deltaMain r).1 = 0 ∧
    (∀ e, r = Except.error e → (deltaMain r).2 = [e]) ∧
    (r = Except.ok () → (deltaMain r).2 = []) := by
  cases r <;> simp [deltaMain]

/-- Witness for the amended C7 theorem at a concrete pipeline error. -/
theorem c7_witness :
    (deltaMain (Except.error "boom")).1 = 0 ∧
    (deltaMain (Except.error "boom")).2 = ["boom"] :=
  ⟨(c7_amended_exit_zero_on_both_paths (Except.error "boom")).1,
   (c7_amended_exit_zero_on_both_paths (Except.error "boom")).2.1 "boom" rfl⟩

/-- C8: for every store, tenant and pipeline id, the read, update and
delete pipeline operations each return 404 when the tenant-scoped pipeline
does not exist and each succeed with a 2xx status when it does
(spec-modelled handlers, consistent with the repository's tests). -/
theorem c8_pipeline_crud_404_vs_2xx (ps : List PipelineRow) (tenant pid : Nat)
    (req : UpdatePipelineRequest) :
    (findPipeline ps tenant pid = none →
      (readPipeline ps tenant pid).1 = 404 ∧
      (updatePipeline ps tenant pid req).1 = 404 ∧
      (deletePipeline ps tenant pid).1 = 404) ∧
    (∀ p, findPipeline ps tenant pid = some p →
      is2xx (readPipeline ps tenant pid).1 ∧
      is2xx (updatePipeline ps tenant pid req).1 ∧
      is2xx (deletePipeline ps tenant pid).1) := by
  constructor
  · intro h
    simp [readPipeline, updatePipeline, deletePipeline, h]
  · intro p h
    simp [readPipeline, updatePipeline, deletePipeline, h, is2xx]

/-- Witness for C8: pipeline 42 is absent (404 on all three operations)
and pipeline 1 is present (2xx on all three). -/
theorem c8_witness :
    ((readPipeline [PipelineRow.mk 1 1 1 1 newPipelineConfig] 1 42).1 = 404 ∧
     (updatePipeline [PipelineRow.mk 1 1 1 1 newPipelineConfig] 1 42
        ⟨2, 2, updatedPipelineConfig⟩).1 = 404 ∧
     (deletePipeline [PipelineRow.mk 1 1 1 1 newPipelineConfig] 1 42).1 = 404) ∧
    (is2xx (readPipeline [PipelineRow.mk 1 1 1 1 newPipelineConfig] 1 1).1 ∧
     is2xx (updatePipeline [PipelineRow.mk 1 1 1 1 newPipelineConfig] 1 1
        ⟨2, 2, updatedPipelineConfig⟩).1 ∧
     is2xx (deletePipeline [PipelineRow.mk 1 1 1 1 newPipelineConfig] 1 1).1) :=
  ⟨(c8_pipeline_crud_404_vs_2xx [PipelineRow.mk 1 1 1 1 newPipelineConfig] 1 42
      ⟨2, 2, updatedPipelineConfig⟩).1 rfl,
   (c8_pipeline_crud_404_vs_2xx [PipelineRow.mk 1 1 1 1 newPipelineConfig] 1 1
      ⟨2, 2, updatedPipelineConfig⟩).2 (PipelineRow.mk 1 1 1 1 newPipelineConfig) rfl⟩

/-- C9 counterexample: a `read_pipeline` handler whose response `id` field
carried the pipeline's `sink_id` would fail the repository's own
`an_existing_pipeline_can_be_updated` test, which asserts `response.id ==
pipeline_id` (1) in a state where the pipeline's sink id is 2. -/
theorem c9_counterexample_sink_id_fails_update_test :
    updateTestAssertions readPipelineSinkIdVariant = false ∧
    (readPipelineSinkIdVariant updateTestStoreAfter 1 1).2 =
      some (PipelineResponse.mk 2 1 2 2 updatedPipelineConfig) := by
  constructor <;> rfl

/-- C9 amended: the `read_pipeline` response carries the pipeline's own
identifier in its `id` field.  A handler returning the pipeline's own id
satisfies both cited tests; the read test's `assert_eq!(response.id,
sink_id)` holds only because the pipeline id and the sink id are both 1 in
that scenario. -/
theorem c9_amended_response_id_is_pipeline_id :
    updateTestAssertions readPipeline = true ∧
    readTestAssertions readPipeline = true ∧
    (readPipeline readTestStore 1 1).2 =
      some (PipelineResponse.mk 1 1 1 1 newPipelineConfig) := by
  refine ⟨rfl, rfl, rfl⟩

/-- C10: `get_last_lsn` returns an LSN (the stored `i64` reinterpreted as
`u64`) only when the result set has at least one row; on zero rows it
panics with `failed to get lsn` rather than returning an `Err`. -/
theorem c10_get_last_lsn_panics_on_empty :
    getLastLsn [] = Outcome.panicked "failed to get lsn" ∧
    (∀ rows lsn, getLastLsn rows = Outcome.ok lsn → rows ≠ []) ∧
    (∀ (v : Int) rest, getLastLsn (Except.ok (some v) :: rest) =
      Outcome.ok (i64AsU64 v)) := by
  refine ⟨rfl, ?_, fun v rest => rfl⟩
  intro rows lsn h hnil
  subst hnil
  simp [getLastLsn] at h

/-- Witness for C10: the empty result set panics; a one-row result set
yields the stored value reinterpreted as `u64`. -/
theorem c10_witness :
    getLastLsn [] = Outcome.panicked "failed to get lsn" ∧
    ([Except.ok (some (5 : Int))] : List (Except String (Option Int))) ≠ [] ∧
    getLastLsn [Except.ok (some (5 : Int))] = Outcome.ok (i64AsU64 5) :=
  ⟨c10_get_last_lsn_panics_on_empty.1,
   c10_get_last_lsn_panics_on_empty.2.1 [Except.ok (some 5)] (i64AsU64 5) rfl,
   c10_get_last_lsn_panics_on_empty.2.2 5 []⟩
